import Mathlib

/-!
Verification development for the `nuxt-auth` cookie provider.

This file gives a shallow embedding of the repository source and proves
properties of it:

* `src/runtime/composables/cookie/useAuth.ts` — the auth actions
  (`getCsrfToken`, `signIn`, `signOut`, `getSession`, `signUp`) over the
  session state container;
* the URL-resolution and redirect helpers (`resolveApiBaseURL`,
  `resolveApiUrlPath`, `isExternalUrl`, `navigateToAuthPages`), together with
  the `ufo` string helpers they call (`withLeadingSlash`, `joinURL`,
  `parseURL`).

The ambient framework collaborators (the HTTP client `_fetch`, the request
cookie store, the current request URL, the system clock, `process.env`) are
modelled as an explicit environment record; every externally observable side
effect (HTTP request issued, navigation, console logging, invoking a supplied
callback) is recorded in an explicit event trace.
-/

namespace NuxtAuth

/-- A JSON-ish JavaScript value as it flows through the composables. The code
under verification never reads nested fields of response payloads (the only
property access is `response.csrfToken`, a string), so object payloads are
modelled as flat string-valued records. -/
inductive JsValue where
  | null
  | undef
  | bool (b : Bool)
  | num (n : Int)
  | str (s : String)
  | obj (fields : List (String × String))
deriving DecidableEq, Repr

/-- JavaScript truthiness of a value: `null`, `undefined`, `false`, `0` and
the empty string are falsy; every object is truthy. -/
def jsTruthy : JsValue → Bool
  | JsValue.null => false
  | JsValue.undef => false
  | JsValue.bool b => b
  | JsValue.num n => n != 0
  | JsValue.str s => s != ""
  | JsValue.obj _ => true

/-- JavaScript `typeof`. Note `typeof null` is the string `"object"`. -/
def jsTypeof : JsValue → String
  | JsValue.null => "object"
  | JsValue.undef => "undefined"
  | JsValue.bool _ => "boolean"
  | JsValue.num _ => "number"
  | JsValue.str _ => "string"
  | JsValue.obj _ => "object"

/-- Truthiness of `useCookie(name).value`, which is `null`/`undefined` when
the cookie is absent and its string value otherwise: falsy exactly when the
cookie is absent or holds the empty string. -/
def jsFalsyOptStr : Option String → Bool
  | none => true
  | some s => s == ""

/-- JS truthiness of the cookie ref OBJECT itself. `useCookie` always returns
a ref object, and an object is always truthy in JavaScript, independent of the
cookie value stored in its `.value`. The source guards its thrown 400 error
with `if (!csrfToken)` rather than `if (!csrfToken.value)`, so that guard
negates the truthiness of the ref object and is constant `false`. -/
def refIsTruthy : Bool := true

/-- `{path, method}` endpoint description from the runtime configuration. -/
structure EndpointConfig where
  path : String
  method : String
deriving DecidableEq, Repr

/-- `config.endpoints` for the cookie provider. `signOut` and `signUp` may be
absent (`if (signOutConfig)` / `if (!signUpEndpoint)` guards in the source);
`signIn`, `getSession` and `csrf` are destructured unconditionally. -/
structure Endpoints where
  signIn : EndpointConfig
  signOut : Option EndpointConfig
  signUp : Option EndpointConfig
  getSession : EndpointConfig
  csrf : EndpointConfig
deriving DecidableEq, Repr

/-- `config.csrf` — the name of the cookie holding the CSRF token. -/
structure CsrfConfig where
  cookie_name : String
deriving DecidableEq, Repr

/-- The typed backend configuration for the cookie provider, as read through
`useTypedBackendConfig(useRuntimeConfig(), "cookie")`. -/
structure CookieConfig where
  endpoints : Endpoints
  csrf : CsrfConfig
deriving DecidableEq, Repr

/-- The session state container of `useAuthState` (cookie provider): the
`data`, `loading` and `lastRefreshedAt` refs. `data = JsValue.null` is the
absent/unauthenticated state; `lastRefreshedAt` is `undefined` until the
first `getSession` completes. -/
structure AuthState where
  data : JsValue
  loading : Bool
  lastRefreshedAt : Option Nat
deriving DecidableEq, Repr

/-- The ambient collaborators of an auth action invocation, held fixed for
the duration of one call:

* `csrfCookie` — the value read through `useCookie(config.csrf?.cookie_name)`.
  The source reads the same ref before and after the CSRF fetch, so one value
  per invocation is faithful;
* `fetchResult` — the external HTTP client `_fetch`, as an oracle from
  `(path, method)` to either a parsed JSON body or a rejection (network
  error, non-2xx status, parse failure). Request headers (forwarded cookie
  header, `Referer`) are assembled from the ambient request and handed to
  this collaborator; they do not influence the control flow under
  verification and are not recorded separately;
* `requestURL` — `getRequestURL` / `getRequestURLWN` for the current request;
* `redirectQueryParam` — the `redirect` query parameter of the current route;
* `now` — the clock read by `new Date()`. -/
structure Env where
  csrfCookie : Option String
  fetchResult : String → String → Except Unit JsValue
  requestURL : String
  redirectQueryParam : Option String
  now : Nat

/-- Externally observable side effects of one auth action invocation, in
order of occurrence. -/
inductive Event where
  | fetched (path method : String)
  | navigate (url : String) (external : Option Bool)
  | callbackInvoked
  | logError (msg : String)
  | logWarn (msg : String)
  | logInfo (msg : String)
deriving DecidableEq, Repr

/-- Errors that can escape an auth action: a rejected `_fetch` promise, a
TypeError from reading a property of `null`/`undefined`, or an error built by
`createError` (h3) and thrown. -/
inductive AuthError where
  | fetchFailed (path : String)
  | typeError
  | httpError (statusCode : Nat) (statusMessage : String)
deriving DecidableEq, Repr

/-- Result of one auth action invocation: the returned value or the
propagated error, the session state container afterwards, and the trace of
observable effects. -/
structure Outcome where
  result : Except AuthError JsValue
  state : AuthState
  trace : List Event

/-- The returned value of an outcome, `none` when the action threw. -/
def Outcome.ok? (o : Outcome) : Option JsValue :=
  match o.result with
  | Except.ok v => some v
  | Except.error _ => none

/-- The propagated error of an outcome, `none` when the action returned. -/
def Outcome.err? (o : Outcome) : Option AuthError :=
  match o.result with
  | Except.ok _ => none
  | Except.error e => some e

/-- `getCsrfToken` (useAuth.ts lines 103-109): forwards the request cookie
header, issues the call to the configured `csrf` endpoint and returns the
`csrfToken` field of the JSON response. A rejected fetch propagates; reading
`.csrfToken` of a `null`/`undefined` body throws a TypeError. -/
def getCsrfToken (cfg : CookieConfig) (env : Env) :
    Except AuthError JsValue × List Event :=
  let ep := cfg.endpoints.csrf
  match env.fetchResult ep.path ep.method with
  | Except.error _ => (Except.error (AuthError.fetchFailed ep.path), [Event.fetched ep.path ep.method])
  | Except.ok response =>
    match response with
    | JsValue.null => (Except.error AuthError.typeError, [Event.fetched ep.path ep.method])
    | JsValue.undef => (Except.error AuthError.typeError, [Event.fetched ep.path ep.method])
    | JsValue.obj fields =>
      (Except.ok (match fields.lookup "csrfToken" with
        | some s => JsValue.str s
        | none => JsValue.undef), [Event.fetched ep.path ep.method])
    | _ => (Except.ok JsValue.undef, [Event.fetched ep.path ep.method])

/-- Options of `getSession` (`GetSessionOptions`). The `onUnauthenticated`
callback is opaque to the composable; it is modelled by the value it returns,
and its invocation is recorded as `Event.callbackInvoked` in the trace. -/
structure GetSessionOptions where
  required : Option Bool := none
  callbackUrl : Option String := none
  onUnauthenticated : Option JsValue := none
  external : Option Bool := none
deriving DecidableEq, Repr

/-- `getSession` (useAuth.ts lines 240-287): set `loading` to true, build
headers (forwarded cookie plus `Referer` set to the current request URL),
issue the GET; on success assign the body to `data` wholesale, on any fetch
failure log when required data is missing and reset `data` to null without
rethrowing; then set `loading` to false and `lastRefreshedAt` to now
unconditionally; finally, when `required` and `data` is null, either return
the result of the supplied `onUnauthenticated` callback or navigate to
`callbackUrl ?? getRequestURLWN(nuxt)`; return `data`. The option
destructurings (`required` both in the catch and after it, the rest after)
are hoisted here, which is behavior-preserving since the options record is
immutable. -/
def getSession (cfg : CookieConfig) (env : Env) (opts : Option GetSessionOptions)
    (st : AuthState) : Outcome :=
  let ep := cfg.endpoints.getSession
  let required := (opts.bind fun o => o.required).getD false
  let callbackUrl := opts.bind fun o => o.callbackUrl
  let onUnauthenticated := opts.bind fun o => o.onUnauthenticated
  let external := opts.bind fun o => o.external
  let st1 : AuthState := { st with loading := true }
  let fetched : AuthState × List Event :=
    match env.fetchResult ep.path ep.method with
    | Except.ok result => ({ st1 with data := result }, [])
    | Except.error _ =>
      ({ st1 with data := JsValue.null },
       if ¬ jsTruthy st1.data ∧ required then [Event.logInfo "Missing required session data."] else [])
  let st3 : AuthState := { fetched.1 with loading := false, lastRefreshedAt := some env.now }
  let t1 : List Event := Event.fetched ep.path ep.method :: fetched.2
  if required ∧ st3.data = JsValue.null then
    match onUnauthenticated with
    | some ret => ⟨Except.ok ret, st3, t1 ++ [Event.callbackInvoked]⟩
    | none => ⟨Except.ok st3.data, st3, t1 ++ [Event.navigate (callbackUrl.getD env.requestURL) external]⟩
  else ⟨Except.ok st3.data, st3, t1⟩

/-- Modelled from the spec: `determineCallbackUrl` lives in
`src/runtime/utils/callbackUrl.ts`, which is not among the provided sources.
Per the spec (section 6, redirect target resolution order for both signIn and
signOut): the explicit `callbackUrl` option is handled by the callers before
this helper is consulted, so the helper resolves the `redirect` query
parameter on the current request, else the current request URL. The sign-out
flag only selects the default fallback target, which the spec fixes to the
current request URL in both cases. -/
def determineCallbackUrl (env : Env) (isSignOut : Bool) : String :=
  match env.redirectQueryParam, isSignOut with
  | some q, _ => q
  | none, _ => env.requestURL

/-- Options of `signIn` (`SecondarySignInOptions`): `redirect` and
`callGetSession` default to true via destructuring defaults. -/
structure SecondarySignInOptions where
  redirect : Option Bool := none
  callGetSession : Option Bool := none
  callbackUrl : Option String := none
  external : Option Bool := none
deriving DecidableEq, Repr

/-- `signIn` (useAuth.ts lines 113-189): log the endpoints object; when the
CSRF cookie value is falsy, await `getCsrfToken` (a rejection propagates) and
then test `if (!csrfToken)` — the ref object, not its value, hence never
throw; POST the credentials to the `signIn` endpoint (a rejection
propagates); on a non-object or null response log an error and return
undefined; otherwise optionally run `getSession` (via `nextTick`, with no
arguments) and optionally navigate to the resolved callback URL, returning
undefined; with `redirect: false` return the raw response. -/
def signIn (cfg : CookieConfig) (env : Env) (credentials : JsValue)
    (opts : Option SecondarySignInOptions) (st : AuthState) : Outcome :=
  let ep := cfg.endpoints.signIn
  let t0 : List Event := [Event.logInfo "config.endpoints"]
  let csrfStep : Except AuthError Unit × List Event :=
    if jsFalsyOptStr env.csrfCookie then
      match getCsrfToken cfg env with
      | (Except.error e, t) => (Except.error e, t)
      | (Except.ok _, t) =>
        if ¬ refIsTruthy then
          (Except.error (AuthError.httpError 400 "Could not fetch CSRF Token for signing in"), t)
        else (Except.ok (), t)
    else (Except.ok (), [])
  match csrfStep with
  | (Except.error e, t1) => ⟨Except.error e, st, t0 ++ t1⟩
  | (Except.ok _, t1) =>
    match env.fetchResult ep.path ep.method with
    | Except.error _ =>
      ⟨Except.error (AuthError.fetchFailed ep.path), st, t0 ++ t1 ++ [Event.fetched ep.path ep.method]⟩
    | Except.ok response =>
      let t2 := t0 ++ t1 ++ [Event.fetched ep.path ep.method]
      if jsTypeof response ≠ "object" ∨ response = JsValue.null then
        ⟨Except.ok JsValue.undef, st, t2 ++ [Event.logError "signIn returned non-object value"]⟩
      else
        let redirect := (opts.bind fun o => o.redirect).getD true
        let callGetSession := (opts.bind fun o => o.callGetSession).getD true
        let sessionStep : AuthState × List Event :=
          if callGetSession then
            let o := getSession cfg env none st
            (o.state, o.trace)
          else (st, [])
        if redirect then
          let callbackUrl :=
            match opts.bind fun o => o.callbackUrl with
            | some u => u
            | none => determineCallbackUrl env false
          ⟨Except.ok JsValue.undef, sessionStep.1,
            t2 ++ sessionStep.2 ++ [Event.navigate callbackUrl (opts.bind fun o => o.external)]⟩
        else ⟨Except.ok response, sessionStep.1, t2 ++ sessionStep.2⟩

/-- Options of `signOut` (`SignOutOptions`): `redirect` defaults to true. -/
structure SignOutOptions where
  redirect : Option Bool := none
  callbackUrl : Option String := none
  external : Option Bool := none
deriving DecidableEq, Repr

/-- `signOut` (useAuth.ts lines 191-238): clear `data` immediately
(optimistic, before any network response is observed); when a `signOut`
endpoint is configured, issue the request and capture the response (a
rejection propagates, with `data` already cleared); THEN run the CSRF-cookie
check — the source places it after the sign-out request — fetching the token
when the cookie value is falsy and testing `if (!csrfToken)` (the ref object,
never falsy, hence never throwing); finally, when `redirect`, navigate to the
resolved callback URL; return the endpoint response (undefined when no
endpoint is configured). -/
def signOut (cfg : CookieConfig) (env : Env) (opts : Option SignOutOptions)
    (st : AuthState) : Outcome :=
  let st1 : AuthState := { st with data := JsValue.null }
  let requestStep : Except AuthError JsValue × List Event :=
    match cfg.endpoints.signOut with
    | none => (Except.ok JsValue.undef, [])
    | some ep =>
      match env.fetchResult ep.path ep.method with
      | Except.error _ => (Except.error (AuthError.fetchFailed ep.path), [Event.fetched ep.path ep.method])
      | Except.ok v => (Except.ok v, [Event.fetched ep.path ep.method])
  match requestStep with
  | (Except.error e, t1) => ⟨Except.error e, st1, t1⟩
  | (Except.ok res, t1) =>
    let redirect := (opts.bind fun o => o.redirect).getD true
    let csrfStep : Except AuthError Unit × List Event :=
      if jsFalsyOptStr env.csrfCookie then
        match getCsrfToken cfg env with
        | (Except.error e, t) => (Except.error e, t)
        | (Except.ok _, t) =>
          if ¬ refIsTruthy then
            (Except.error (AuthError.httpError 400 "Could not fetch CSRF Token for signing out"), t)
          else (Except.ok (), t)
      else (Except.ok (), [])
    match csrfStep with
    | (Except.error e, t2) => ⟨Except.error e, st1, t1 ++ t2⟩
    | (Except.ok _, t2) =>
      if redirect then
        let callbackUrl :=
          match opts.bind fun o => o.callbackUrl with
          | some u => u
          | none => determineCallbackUrl env true
        ⟨Except.ok res, st1, t1 ++ t2 ++ [Event.navigate callbackUrl (opts.bind fun o => o.external)]⟩
      else ⟨Except.ok res, st1, t1 ++ t2⟩

/-- Options of `signUp` (`SignUpOptions`): the sign-in options plus
`preventLoginFlow`. -/
structure SignUpOptions extends SecondarySignInOptions where
  preventLoginFlow : Option Bool := none
deriving DecidableEq, Repr

/-- `signUp` (useAuth.ts lines 289-310): when no `signUp` endpoint is
configured, log a warning and return undefined without any HTTP request;
otherwise POST the credentials (a rejection propagates); when
`preventLoginFlow` is truthy return the raw response; otherwise chain into
`signIn` with the same credentials and options. -/
def signUp (cfg : CookieConfig) (env : Env) (credentials : JsValue)
    (opts : Option SignUpOptions) (st : AuthState) : Outcome :=
  match cfg.endpoints.signUp with
  | none => ⟨Except.ok JsValue.undef, st, [Event.logWarn "provider.endpoints.signUp is disabled."]⟩
  | some ep =>
    match env.fetchResult ep.path ep.method with
    | Except.error _ => ⟨Except.error (AuthError.fetchFailed ep.path), st, [Event.fetched ep.path ep.method]⟩
    | Except.ok result =>
      if (opts.bind fun o => o.preventLoginFlow).getD false then
        ⟨Except.ok result, st, [Event.fetched ep.path ep.method]⟩
      else
        let o := signIn cfg env credentials (opts.map fun o => o.toSecondarySignInOptions) st
        ⟨o.result, o.state, Event.fetched ep.path ep.method :: o.trace⟩

/-- JavaScript `s.startsWith(p)`. -/
def jsStartsWith (s p : String) : Bool := p.data.isPrefixOf s.data

/-- JavaScript `s.endsWith(p)`. -/
def jsEndsWith (s p : String) : Bool := p.data.isSuffixOf s.data

/-- JavaScript `s.includes(p)`. -/
def jsIncludes (s p : String) : Bool := s.data.tails.any fun t => p.data.isPrefixOf t

/-- `isExternalUrl` (part_000 lines 107-109): naive scheme-prefix check. -/
def isExternalUrl (url : String) : Bool :=
  jsStartsWith url "http://" || jsStartsWith url "https://"

/-- ufo `withLeadingSlash`: prepend a slash unless one is present. -/
def withLeadingSlash (input : String) : String :=
  if jsStartsWith input "/" then input else "/" ++ input

/-- ufo `withTrailingSlash` (no query/fragment handling, as called by
`joinURL`): append a slash unless one is present. -/
def withTrailingSlash (input : String) : String :=
  if jsEndsWith input "/" then input else input ++ "/"

/-- ufo `isNonEmptyURL`: a truthy string distinct from the bare slash. -/
def isNonEmptyURL (url : String) : Bool := url != "" && url != "/"

/-- ufo segment normalisation inside `joinURL`: strip one leading `./` or
`/` (the regex `JOIN_LEADING_SLASH_RE`). -/
def stripJoinLeadingSlash (s : String) : String :=
  if jsStartsWith s "./" then s.drop 2
  else if jsStartsWith s "/" then s.drop 1
  else s

/-- ufo `joinURL`: fold the non-empty segments onto the base, inserting a
single slash at each seam. -/
def joinURL (base : String) (input : List String) : String :=
  (input.filter isNonEmptyURL).foldl
    (fun url segment =>
      if url != "" then withTrailingSlash url ++ stripJoinLeadingSlash segment
      else segment)
    base

/-- Characters matched by the JavaScript regex class `\s` (whitespace). -/
def jsSpace (c : Char) : Bool :=
  c = ' ' ∨ c = '\t' ∨ c = '\n' ∨ c = '\r' ∨ c = '\x0b' ∨ c = '\x0c'
    ∨ c = ' ' ∨ c = '﻿'

/-- Characters matched by `[\s\0]` (whitespace or NUL) in the ufo regexes. -/
def jsSpaceOrNul (c : Char) : Bool := jsSpace c ∨ c = '\x00'

/-- Characters matched by `.` in a JavaScript regex (anything except line
terminators). -/
def jsDotChar (c : Char) : Bool :=
  ¬ (c = '\n' ∨ c = '\r' ∨ c = ' ' ∨ c = ' ')

/-- Characters of the ufo protocol class `[\w+.-]` (`\w` is ASCII). -/
def protoChar (c : Char) : Bool :=
  c.isAlphanum ∨ c = '_' ∨ c = '+' ∨ c = '.' ∨ c = '-'

/-- Characters of the loose-protocol class `[\s\w\0+.-]` of ufo
`PROTOCOL_REGEX`. -/
def looseProtoChar (c : Char) : Bool := jsSpaceOrNul c ∨ protoChar c

/-- ufo `PROTOCOL_REGEX` (`^[\s\w\0+.-]{2,}:([/\\]{1,2})?`): a run of at
least two loose-protocol characters followed by a colon. The optional slashes
do not affect whether the regex matches. -/
def hasProtocolLoose (s : String) : Bool :=
  let run := s.data.takeWhile looseProtoChar
  decide (2 ≤ run.length) && ((s.data.drop run.length).head? == some ':')

/-- Slash or backslash, the class `[/\\]`. -/
def isSlash (c : Char) : Bool := c = '/' ∨ c = '\\'

mutual
/-- Matcher for the tail of ufo `PROTOCOL_RELATIVE_REGEX`
(`^([/\\]\s*){2,}[^/\\]`), positioned right after the `n`-th slash. The
regex matches from here when (a) at least two groups are complete and the
next character exists and is not a slash (covering whitespace given back by
a backtracking `\s*`), or (b) another `\s*`-then-slash group follows and the
match continues after it. -/
def protoRelAfterSlash : List Char → Nat → Bool
  | [], _ => false
  | c :: cs, n =>
    if isSlash c then protoRelAfterSlash cs (n + 1)
    else if 2 ≤ n then true
    else if jsSpace c then protoRelSpace cs n
    else false

/-- Matcher inside the `\s*` of a group of `PROTOCOL_RELATIVE_REGEX`, with
fewer than two slashes consumed: skip whitespace until the next slash. -/
def protoRelSpace : List Char → Nat → Bool
  | [], _ => false
  | c :: cs, n =>
    if isSlash c then protoRelAfterSlash cs (n + 1)
    else if jsSpace c then protoRelSpace cs n
    else false
end

/-- ufo `PROTOCOL_RELATIVE_REGEX` (`^([/\\]\s*){2,}[^/\\]`). -/
def protoRelative (s : String) : Bool :=
  match s.data with
  | c :: cs => isSlash c && protoRelAfterSlash cs 1
  | [] => false

/-- ufo `hasProtocol(input, { acceptRelative: true })`, as called by
`parseURL`. -/
def hasProtocolAcceptRelative (s : String) : Bool :=
  hasProtocolLoose s || protoRelative s

/-- ufo `parsePath` pathname: the leading run of characters outside `[#?]`
(the group `([^#?]*)` of its regex). -/
def parsePathPathname (input : String) : String :=
  ⟨input.data.takeWhile (fun c => ¬ (c = '#' ∨ c = '?'))⟩

/-- The special-protocol branch of ufo `parseURL`
(`^[\s\0]*(blob:|data:|javascript:|vbscript:)(.*)/i`): when it matches, the
whole remainder of the line is the pathname. -/
def matchSpecialProto (input : String) : Option String :=
  let t : String := ⟨input.data.dropWhile jsSpaceOrNul⟩
  let rest (n : Nat) : String := ⟨(t.data.drop n).takeWhile jsDotChar⟩
  if jsStartsWith t.toLower "blob:" then some (rest 5)
  else if jsStartsWith t.toLower "data:" then some (rest 5)
  else if jsStartsWith t.toLower "javascript:" then some (rest 11)
  else if jsStartsWith t.toLower "vbscript:" then some (rest 9)
  else none

/-- The main regex of ufo `parseURL`
(`^[\s\0]*([\w+.-]{2,}:)?\/\/([^/@]+@)?(.*)`), applied to the
backslash-normalised input: strips leading whitespace/NUL, the optional
protocol (a run of at least two protocol characters, a colon, then the
mandatory `//` — when the protocol group cannot complete, the `//` must sit
directly after the stripped whitespace), and the optional `auth@` part;
returns the protocol (with its colon) and the host-and-path remainder. -/
def parseURLMain (s : String) : Option (String × String) :=
  let cs := s.data.dropWhile jsSpaceOrNul
  let run := cs.takeWhile protoChar
  let afterRun := cs.drop run.length
  let withProto : Option (String × List Char) :=
    if 2 ≤ run.length then
      match afterRun with
      | ':' :: '/' :: '/' :: rest => some (String.mk run ++ ":", rest)
      | _ => none
    else none
  let withoutProto : Option (String × List Char) :=
    match cs with
    | '/' :: '/' :: rest => some ("", rest)
    | _ => none
  match withProto <|> withoutProto with
  | none => none
  | some (proto, rest) =>
    let authRun := rest.takeWhile (fun c => ¬ (c = '/' ∨ c = '@'))
    let rest2 :=
      match rest.drop authRun.length with
      | '@' :: r => if 1 ≤ authRun.length then r else rest
      | _ => rest
    some (proto, ⟨rest2.takeWhile jsDotChar⟩)

/-- The `file:` special case of ufo `parseURL`
(`path.replace(/\/(?=[A-Za-z]:)/, "")`): drop the first slash that directly
precedes an ASCII drive letter and a colon. -/
def stripDriveSlash : List Char → List Char
  | [] => []
  | '/' :: c :: ':' :: rest =>
    if c.isAlpha then c :: ':' :: rest else '/' :: stripDriveSlash (c :: ':' :: rest)
  | c :: rest => c :: stripDriveSlash rest

/-- The `pathname` field of ufo `parseURL`, the only projection consumed by
`resolveApiBaseURL`: special protocols keep their whole remainder; inputs
without a protocol (not even a protocol-relative `//`) are parsed as bare
paths; otherwise the host is the run outside `[#/?]` after protocol and
auth, and the pathname is extracted from the rest. -/
def parseURLPathname (input : String) : String :=
  match matchSpecialProto input with
  | some rest => rest
  | none =>
    if ¬ hasProtocolAcceptRelative input then parsePathPathname input
    else
      let replaced : String := ⟨input.data.map fun c => if c = '\\' then '/' else c⟩
      match parseURLMain replaced with
      | none => ""
      | some (proto, hostAndPath) =>
        let hp := hostAndPath.data
        let host := hp.takeWhile (fun c => ¬ (c = '#' ∨ c = '/' ∨ c = '?'))
        let path := hp.drop host.length
        let path := if proto = "file:" then stripDriveSlash path else path
        parsePathPathname ⟨path⟩

/-- `runtimeConfig.public.auth` as typed in part_000 (`RuntimeConfig`). -/
structure AuthRuntimeConfig where
  baseURL : String
  disableInternalRouting : Bool
  originEnvKey : String
deriving DecidableEq, Repr

/-- The `public` wrapper of the slimmed-down `RuntimeConfig`. -/
structure PublicRuntimeConfig where
  auth : AuthRuntimeConfig
deriving DecidableEq, Repr

/-- The slimmed-down `RuntimeConfig` of part_000 lines 8-16. -/
structure RuntimeConfig where
  public : PublicRuntimeConfig
deriving DecidableEq, Repr

/-- Ambient build/process context of the URL resolver: `isServer` models
`import.meta.server !== false` (true on the server build and when the flag is
undefined), and `processEnv` models `process.env`. -/
structure ResolverCtx where
  isServer : Bool
  processEnv : String → Option String

/-- `resolveApiBaseURL` (part_000 lines 72-100): default `returnOnlyPathname`
to the negation of `disableInternalRouting`; start from the configured
`baseURL`; on the server, when `originEnvKey` is a truthy string and the
named environment variable holds a truthy value, override the base URL with
it; finally, in path-only mode, reduce the base URL to
`withLeadingSlash(parseURL(baseURL).pathname)`. -/
def resolveApiBaseURL (ctx : ResolverCtx) (runtimeConfig : RuntimeConfig)
    (returnOnlyPathname : Option Bool) : String :=
  let authRuntimeConfig := runtimeConfig.public.auth
  let returnOnlyPathname :=
    match returnOnlyPathname with
    | some b => b
    | none => ¬ authRuntimeConfig.disableInternalRouting
  let baseURL := authRuntimeConfig.baseURL
  let baseURL :=
    if ctx.isServer ∧ authRuntimeConfig.originEnvKey ≠ "" then
      match ctx.processEnv authRuntimeConfig.originEnvKey with
      | some envBaseURL => if envBaseURL ≠ "" then envBaseURL else baseURL
      | none => baseURL
    else baseURL
  if returnOnlyPathname then withLeadingSlash (parseURLPathname baseURL)
  else baseURL

/-- `resolveApiUrlPath` (part_000 lines 59-70): a fully specified external
endpoint path is returned unchanged; anything else is joined onto the
resolved base URL. -/
def resolveApiUrlPath (ctx : ResolverCtx) (endpointPath : String)
    (runtimeConfig : RuntimeConfig) : String :=
  if isExternalUrl endpointPath then endpointPath
  else joinURL (resolveApiBaseURL ctx runtimeConfig none) [endpointPath]

/-- Observable effects of `navigateToAuthPages`. -/
inductive NavEffect where
  | appRedirectedHook
  | sentRedirect (href : String) (statusCode : Nat)
  | setWindowLocation (href : String)
  | windowReload
  | routerPushFallback (href : String)
deriving DecidableEq, Repr

/-- Client-side navigation APIs: setting `window.location`, reloading the
window, or the router-push fallback. -/
def isClientNavEffect : NavEffect → Bool
  | NavEffect.setWindowLocation _ => true
  | NavEffect.windowReload => true
  | NavEffect.routerPushFallback _ => true
  | _ => false

/-- `navigateToAuthPages` (part_000 lines 33-56): in a server-rendering
context (`process.server` with an ssr-context event, i.e. an in-flight
request/response exchange) run the `app:redirected` hook and send a 302
redirect on the event, returning; otherwise set `window.location.href`,
force a reload when the target contains a fragment, and schedule the bounded
router-push fallback. -/
def navigateToAuthPages (isServer : Bool) (hasSsrEvent : Bool) (href : String) :
    List NavEffect :=
  if isServer ∧ hasSsrEvent then
    [NavEffect.appRedirectedHook, NavEffect.sentRedirect href 302]
  else
    [NavEffect.setWindowLocation href]
      ++ (if jsIncludes href "#" then [NavEffect.windowReload] else [])
      ++ [NavEffect.routerPushFallback href]

/-- Whether an event is a navigation. -/
def isNavigateEvent : Event → Bool
  | Event.navigate _ _ => true
  | _ => false

/-- Whether the first occurrence of `a` strictly precedes the first
occurrence of `b` in the trace `t` (false when either is absent). -/
def eventBefore (t : List Event) (a b : Event) : Bool :=
  match t.findIdx? (fun x => x == a), t.findIdx? (fun x => x == b) with
  | some i, some j => decide (i < j)
  | _, _ => false

/-! Concrete example data used by witnesses and counterexamples. -/

/-- The endpoint configuration of the spec scenarios, with all five
endpoints configured. -/
def exCfg : CookieConfig :=
  { endpoints :=
      { signIn := ⟨"/login", "post"⟩
        signOut := some ⟨"/logout", "post"⟩
        signUp := some ⟨"/register", "post"⟩
        getSession := ⟨"/user", "get"⟩
        csrf := ⟨"/csrf", "get"⟩ }
    csrf := ⟨"csrf-token"⟩ }

/-- The example configuration with the optional `signUp` endpoint absent. -/
def exCfgNoSignUp : CookieConfig :=
  { exCfg with endpoints := { exCfg.endpoints with signUp := none } }

/-- A world in which the CSRF cookie is absent and stays absent after the
CSRF fetch (the fetch succeeds and returns a token, but the cookie re-read
still sees no value), while all configured endpoints respond successfully. -/
def exEnvNoCsrf : Env :=
  { csrfCookie := none
    fetchResult := fun p _ =>
      if p = "/csrf" then Except.ok (JsValue.obj [("csrfToken", "tok")])
      else if p = "/login" then Except.ok (JsValue.obj [("ok", "true")])
      else if p = "/user" then Except.ok (JsValue.obj [("user", "alice")])
      else if p = "/logout" then Except.ok (JsValue.obj [])
      else if p = "/register" then Except.ok (JsValue.obj [("id", "1")])
      else Except.error ()
    requestURL := "/current"
    redirectQueryParam := none
    now := 42 }

/-- A world in which the CSRF cookie is present but every fetch fails (e.g.
the backend answers 401 on the session endpoint). -/
def exEnvFail : Env :=
  { csrfCookie := some "tok"
    fetchResult := fun _ _ => Except.error ()
    requestURL := "/current"
    redirectQueryParam := none
    now := 7 }

/-- A world in which the session fetch succeeds but its response body is the
JSON value `null`. -/
def exEnvNullBody : Env :=
  { csrfCookie := some "tok"
    fetchResult := fun _ _ => Except.ok JsValue.null
    requestURL := "/current"
    redirectQueryParam := none
    now := 7 }

/-- The initial session state container: no data, not loading, never
refreshed. -/
def st0 : AuthState := ⟨JsValue.null, false, none⟩

/-! Helper lemmas about the string primitives. -/

theorem jsStartsWith_withLeadingSlash (s : String) :
    jsStartsWith (withLeadingSlash s) "/" = true := by
  unfold withLeadingSlash
  by_cases h : jsStartsWith s "/" = true
  · simp [h]
  · rw [Bool.not_eq_true] at h
    rw [h]
    simp [jsStartsWith, String.data_append, List.isPrefixOf_iff_prefix,
      List.prefix_append]

theorem isExternalUrl_eq_false_of_slash (r : String)
    (h : jsStartsWith r "/" = true) : isExternalUrl r = false := by
  rw [jsStartsWith, List.isPrefixOf_iff_prefix] at h
  obtain ⟨t, ht⟩ := h
  have hdata : r.data = '/' :: t := by simpa using ht.symm
  rw [isExternalUrl, jsStartsWith, jsStartsWith, hdata]
  rfl

theorem withLeadingSlash_pathOnly (B : String) :
    jsStartsWith (withLeadingSlash B) "/" = true
      ∧ isExternalUrl (withLeadingSlash B) = false :=
  ⟨jsStartsWith_withLeadingSlash B,
    isExternalUrl_eq_false_of_slash _ (jsStartsWith_withLeadingSlash B)⟩

/-- C7: for every runtime configuration with `disableInternalRouting = false`
and `returnOnlyPathname` unspecified, `resolveApiBaseURL` returns a path-only
string — it begins with a leading slash and carries no `http(s)` scheme or
origin — in every server/environment context. -/
theorem resolveApiBaseURL_pathOnly (ctx : ResolverCtx) (rc : RuntimeConfig)
    (h : rc.public.auth.disableInternalRouting = false) :
    jsStartsWith (resolveApiBaseURL ctx rc none) "/" = true
      ∧ isExternalUrl (resolveApiBaseURL ctx rc none) = false := by
  unfold resolveApiBaseURL
  simp only [h]
  exact withLeadingSlash_pathOnly _

/-- Witness for C7 at a concrete configuration: an absolute configured base
URL is reduced to its path, which starts with a slash and is not external. -/
theorem resolveApiBaseURL_pathOnly_witness :
    jsStartsWith
        (resolveApiBaseURL ⟨true, fun _ => none⟩
          ⟨⟨⟨"https://example.com/api/auth", false, "AUTH_ORIGIN"⟩⟩⟩ none) "/" = true
      ∧ isExternalUrl
        (resolveApiBaseURL ⟨true, fun _ => none⟩
          ⟨⟨⟨"https://example.com/api/auth", false, "AUTH_ORIGIN"⟩⟩⟩ none) = false :=
  resolveApiBaseURL_pathOnly ⟨true, fun _ => none⟩
    ⟨⟨⟨"https://example.com/api/auth", false, "AUTH_ORIGIN"⟩⟩⟩ rfl

/-- C8: for every endpoint path that starts with `http://` or `https://`,
`resolveApiUrlPath` returns it unchanged, for every configuration and
context; it is never joined onto the resolved base URL. -/
theorem resolveApiUrlPath_external_unchanged (ctx : ResolverCtx)
    (rc : RuntimeConfig) (endpointPath : String)
    (h : jsStartsWith endpointPath "http://" = true
      ∨ jsStartsWith endpointPath "https://" = true) :
    resolveApiUrlPath ctx endpointPath rc = endpointPath := by
  unfold resolveApiUrlPath isExternalUrl
  rcases h with h | h <;> simp [h]

/-- Witness for C8: the fully qualified endpoint of the spec scenario is
returned unchanged at a concrete configuration. -/
theorem resolveApiUrlPath_external_unchanged_witness :
    resolveApiUrlPath ⟨true, fun _ => none⟩ "https://ext.example/x"
      ⟨⟨⟨"/api/auth", false, "AUTH_ORIGIN"⟩⟩⟩ = "https://ext.example/x" :=
  resolveApiUrlPath_external_unchanged ⟨true, fun _ => none⟩
    ⟨⟨⟨"/api/auth", false, "AUTH_ORIGIN"⟩⟩⟩ "https://ext.example/x"
    (Or.inr (by decide))

/-- C6: in a server-rendering execution context (server build with an
in-flight ssr event), `navigateToAuthPages` runs the redirect hook and sends
an HTTP 302 redirect on the in-flight exchange, and its effect trace contains
no client-side navigation API use (no `window.location`, no reload, no router
push). -/
theorem navigateToAuthPages_server_redirect (href : String) :
    navigateToAuthPages true true href
        = [NavEffect.appRedirectedHook, NavEffect.sentRedirect href 302]
      ∧ ∀ e ∈ navigateToAuthPages true true href, isClientNavEffect e = false := by
  constructor
  · simp [navigateToAuthPages]
  · intro e he
    simp [navigateToAuthPages] at he
    rcases he with rfl | rfl <;> rfl

/-- Witness for C6 at a concrete target URL: the server-context trace is
exactly the redirect hook followed by the 302 redirect. -/
theorem navigateToAuthPages_server_redirect_witness :
    navigateToAuthPages true true "/auth/signin"
      = [NavEffect.appRedirectedHook, NavEffect.sentRedirect "/auth/signin" 302] :=
  (navigateToAuthPages_server_redirect "/auth/signin").1

theorem getSession_loading_lastRefreshed (cfg : CookieConfig) (env : Env)
    (opts : Option GetSessionOptions) (st : AuthState) :
    (getSession cfg env opts st).state.loading = false
      ∧ (getSession cfg env opts st).state.lastRefreshedAt = some env.now := by
  simp only [getSession]
  cases hf : env.fetchResult cfg.endpoints.getSession.path cfg.endpoints.getSession.method <;>
    dsimp only <;> (repeat' split) <;> simp

theorem getSession_err_none (cfg : CookieConfig) (env : Env)
    (opts : Option GetSessionOptions) (st : AuthState) :
    (getSession cfg env opts st).err? = none := by
  simp only [getSession]
  cases hf : env.fetchResult cfg.endpoints.getSession.path cfg.endpoints.getSession.method <;>
    dsimp only <;> (repeat' split) <;> simp [Outcome.err?]

theorem getSession_data_null_of_error (cfg : CookieConfig) (env : Env)
    (opts : Option GetSessionOptions) (st : AuthState)
    (hf : env.fetchResult cfg.endpoints.getSession.path cfg.endpoints.getSession.method
      = Except.error ()) :
    (getSession cfg env opts st).state.data = JsValue.null := by
  simp only [getSession, hf]
  dsimp only
  (repeat' split) <;> simp

/-- C3: `getSession` sets `loading` to false and `lastRefreshedAt` to the
current time whether the fetch succeeded or failed; and on a failed session
fetch it propagates no error to the caller and resets `data` to absent. -/
theorem getSession_swallows_fetch_failure (cfg : CookieConfig) (env : Env)
    (opts : Option GetSessionOptions) (st : AuthState) :
    ((getSession cfg env opts st).state.loading = false
      ∧ (getSession cfg env opts st).state.lastRefreshedAt = some env.now)
    ∧ (env.fetchResult cfg.endpoints.getSession.path cfg.endpoints.getSession.method
          = Except.error ()
        → (getSession cfg env opts st).err? = none
          ∧ (getSession cfg env opts st).state.data = JsValue.null) :=
  ⟨getSession_loading_lastRefreshed cfg env opts st,
    fun hf => ⟨getSession_err_none cfg env opts st,
      getSession_data_null_of_error cfg env opts st hf⟩⟩

/-- Witness for C3 in a world where the session fetch fails: no error, data
cleared, loading false, lastRefreshedAt set to the current time. -/
theorem getSession_swallows_fetch_failure_witness :
    ((getSession exCfg exEnvFail none st0).state.loading = false
      ∧ (getSession exCfg exEnvFail none st0).state.lastRefreshedAt = some exEnvFail.now)
    ∧ (getSession exCfg exEnvFail none st0).err? = none
    ∧ (getSession exCfg exEnvFail none st0).state.data = JsValue.null := by
  refine ⟨(getSession_swallows_fetch_failure exCfg exEnvFail none st0).1, ?_, ?_⟩
  · exact ((getSession_swallows_fetch_failure exCfg exEnvFail none st0).2 rfl).1
  · exact ((getSession_swallows_fetch_failure exCfg exEnvFail none st0).2 rfl).2

/-- C4: every `signOut` invocation leaves the container with `data` absent:
the clear happens first, before the sign-out request is issued, so it holds
in particular when the network call fails (the propagated-error outcomes
also carry the cleared state). -/
theorem signOut_clears_data_unconditionally (cfg : CookieConfig) (env : Env)
    (opts : Option SignOutOptions) (st : AuthState) :
    (signOut cfg env opts st).state.data = JsValue.null := by
  simp only [signOut]
  cases hso : cfg.endpoints.signOut <;>
    dsimp only <;> (repeat' split) <;> simp

/-- C5: when `getSession` is called with `required = true` and an
`onUnauthenticated` callback and the session fetch fails, the callback is
invoked exactly once, its return value is the return value of `getSession`,
and no navigation occurs. -/
theorem getSession_onUnauthenticated_callback (cfg : CookieConfig) (env : Env)
    (st : AuthState) (opts : GetSessionOptions) (ret : JsValue)
    (hreq : opts.required = some true)
    (hcb : opts.onUnauthenticated = some ret)
    (hf : env.fetchResult cfg.endpoints.getSession.path cfg.endpoints.getSession.method
      = Except.error ()) :
    (getSession cfg env (some opts) st).ok? = some ret
      ∧ (getSession cfg env (some opts) st).trace.count Event.callbackInvoked = 1
      ∧ ∀ e ∈ (getSession cfg env (some opts) st).trace, isNavigateEvent e = false := by
  by_cases hd : jsTruthy st.data <;>
    simp [getSession, hf, hreq, hcb, hd, Outcome.ok?, isNavigateEvent,
      List.count_cons, List.count_append, beq_iff_eq]

/-- Witness for C5: in a failing-fetch world with a supplied callback, the
callback result is returned and the callback runs exactly once. -/
theorem getSession_onUnauthenticated_callback_witness :
    (getSession exCfg exEnvFail
        (some { required := some true, onUnauthenticated := some (JsValue.str "r") }) st0).ok?
        = some (JsValue.str "r")
      ∧ (getSession exCfg exEnvFail
        (some { required := some true, onUnauthenticated := some (JsValue.str "r") }) st0).trace.count
          Event.callbackInvoked = 1 := by
  have h := getSession_onUnauthenticated_callback exCfg exEnvFail st0
    { required := some true, onUnauthenticated := some (JsValue.str "r") }
    (JsValue.str "r") rfl rfl rfl
  exact ⟨h.1, h.2.1⟩

/-- C10: with `required = true`, the unauthenticated handling of
`getSession` fires whenever `data` is null after the fetch — in particular
when the HTTP call succeeded but its body was the JSON value `null`: with a
callback supplied, it is invoked and its value returned; without one, a
navigation to `callbackUrl` (falling back to the current request URL) is
issued. -/
theorem getSession_required_checks_only_presence (cfg : CookieConfig) (env : Env)
    (st : AuthState) (opts : GetSessionOptions)
    (hreq : opts.required = some true)
    (hf : env.fetchResult cfg.endpoints.getSession.path cfg.endpoints.getSession.method
      = Except.ok JsValue.null) :
    (opts.onUnauthenticated = none
      → Event.navigate (opts.callbackUrl.getD env.requestURL) opts.external
          ∈ (getSession cfg env (some opts) st).trace)
    ∧ (∀ ret, opts.onUnauthenticated = some ret
      → (getSession cfg env (some opts) st).ok? = some ret
        ∧ Event.callbackInvoked ∈ (getSession cfg env (some opts) st).trace) := by
  constructor
  · intro hcb
    simp [getSession, hf, hreq, hcb, Outcome.ok?]
  · intro ret hcb
    simp [getSession, hf, hreq, hcb, Outcome.ok?]

/-- Witness for C10: a 200 response with body `null` triggers the navigation
fallback of the required check. -/
theorem getSession_required_checks_only_presence_witness :
    Event.navigate "/current" none
        ∈ (getSession exCfg exEnvNullBody (some { required := some true }) st0).trace :=
  (getSession_required_checks_only_presence exCfg exEnvNullBody st0
    { required := some true } rfl rfl).1 rfl

/-- C9: `signUp` with a configured endpoint and `preventLoginFlow = true`
returns the raw sign-up response, leaves the session state untouched and
performs no effect beyond the single sign-up request (so `signIn`, the
session fetch and any redirect never happen); and `signUp` without a
configured endpoint logs a warning and returns undefined without issuing any
HTTP request. -/
theorem signUp_preventLoginFlow_and_missing_endpoint :
    (∀ (cfg : CookieConfig) (env : Env) (creds : JsValue) (st : AuthState)
        (ep : EndpointConfig) (opts : SignUpOptions) (v : JsValue),
      cfg.endpoints.signUp = some ep
      → opts.preventLoginFlow = some true
      → env.fetchResult ep.path ep.method = Except.ok v
      → (signUp cfg env creds (some opts) st).ok? = some v
        ∧ (signUp cfg env creds (some opts) st).trace = [Event.fetched ep.path ep.method]
        ∧ (signUp cfg env creds (some opts) st).state = st)
    ∧ (∀ (cfg : CookieConfig) (env : Env) (creds : JsValue)
        (opts : Option SignUpOptions) (st : AuthState),
      cfg.endpoints.signUp = none
      → (signUp cfg env creds opts st).ok? = some JsValue.undef
        ∧ (signUp cfg env creds opts st).trace
            = [Event.logWarn "provider.endpoints.signUp is disabled."]
        ∧ (signUp cfg env creds opts st).state = st) := by
  constructor
  · intro cfg env creds st ep opts v h1 h2 h3
    simp [signUp, h1, h2, h3, Outcome.ok?]
  · intro cfg env creds opts st h1
    simp [signUp, h1, Outcome.ok?]

/-- Witness for C9: both branches at concrete inputs — `preventLoginFlow`
returns the raw response after one request, and a missing endpoint only
warns. -/
theorem signUp_preventLoginFlow_and_missing_endpoint_witness :
    ((signUp exCfg exEnvNoCsrf (JsValue.obj []) (some { preventLoginFlow := some true }) st0).ok?
        = some (JsValue.obj [("id", "1")])
      ∧ (signUp exCfg exEnvNoCsrf (JsValue.obj []) (some { preventLoginFlow := some true }) st0).trace
        = [Event.fetched "/register" "post"]
      ∧ (signUp exCfg exEnvNoCsrf (JsValue.obj []) (some { preventLoginFlow := some true }) st0).state
        = st0)
    ∧ ((signUp exCfgNoSignUp exEnvNoCsrf (JsValue.obj []) none st0).ok? = some JsValue.undef
      ∧ (signUp exCfgNoSignUp exEnvNoCsrf (JsValue.obj []) none st0).trace
        = [Event.logWarn "provider.endpoints.signUp is disabled."]
      ∧ (signUp exCfgNoSignUp exEnvNoCsrf (JsValue.obj []) none st0).state = st0) :=
  ⟨signUp_preventLoginFlow_and_missing_endpoint.1 exCfg exEnvNoCsrf (JsValue.obj []) st0
      ⟨"/register", "post"⟩ { preventLoginFlow := some true } (JsValue.obj [("id", "1")])
      rfl rfl rfl,
    signUp_preventLoginFlow_and_missing_endpoint.2 exCfgNoSignUp exEnvNoCsrf (JsValue.obj [])
      none st0 rfl⟩

/-- C1 (code bug, evaluated at the failing input): in a world where the CSRF
cookie is absent and remains absent after the single `getCsrfToken` fetch
attempt, both `signIn` and `signOut` proceed with their mutating HTTP request
and complete without throwing — the 400 `CsrfAcquisitionError` is never
raised, because the source guards it with `if (!csrfToken)` (the always
truthy ref object) instead of `if (!csrfToken.value)`. The traces show the
single CSRF fetch attempt followed by the mutating request. -/
theorem signIn_signOut_proceed_without_csrf :
    (signIn exCfg exEnvNoCsrf (JsValue.obj [("email", "a")])
        (some { redirect := some false, callGetSession := some false }) st0).ok?
        = some (JsValue.obj [("ok", "true")])
      ∧ (signIn exCfg exEnvNoCsrf (JsValue.obj [("email", "a")])
        (some { redirect := some false, callGetSession := some false }) st0).trace
        = [Event.logInfo "config.endpoints", Event.fetched "/csrf" "get",
           Event.fetched "/login" "post"]
      ∧ (signOut exCfg exEnvNoCsrf none st0).ok? = some (JsValue.obj [])
      ∧ (signOut exCfg exEnvNoCsrf none st0).trace
        = [Event.fetched "/logout" "post", Event.fetched "/csrf" "get",
           Event.navigate "/current" none] := by
  refine ⟨rfl, rfl, rfl, rfl⟩

/-- C2 (counterexample): at a concrete configuration with a configured
`signOut` endpoint and an absent CSRF cookie, the CSRF fetch does NOT precede
the signOut HTTP request — the trace records the signOut request first and
the CSRF fetch only afterwards. -/
theorem signOut_csrf_not_before_request_cex :
    eventBefore (signOut exCfg exEnvNoCsrf none st0).trace
        (Event.fetched "/csrf" "get") (Event.fetched "/logout" "post") = false
      ∧ eventBefore (signOut exCfg exEnvNoCsrf none st0).trace
        (Event.fetched "/logout" "post") (Event.fetched "/csrf" "get") = true := by
  refine ⟨by decide, by decide⟩

/-- C2 (amended): for every `signOut` invocation with a configured `signOut`
endpoint, an absent (falsy) CSRF cookie and a successful sign-out fetch, the
CSRF cookie check and its `getCsrfToken` fetch happen immediately AFTER the
signOut HTTP request is issued, not before it. -/
theorem signOut_request_then_csrf_fetch (cfg : CookieConfig) (env : Env)
    (opts : Option SignOutOptions) (st : AuthState) (ep : EndpointConfig) (v : JsValue)
    (h1 : cfg.endpoints.signOut = some ep)
    (h2 : jsFalsyOptStr env.csrfCookie = true)
    (h3 : env.fetchResult ep.path ep.method = Except.ok v) :
    (signOut cfg env opts st).trace.take 2
      = [Event.fetched ep.path ep.method,
         Event.fetched cfg.endpoints.csrf.path cfg.endpoints.csrf.method] := by
  simp only [signOut, h1, h3, h2, getCsrfToken, refIsTruthy, not_true, if_true,
    Bool.false_eq_true, if_false]
  cases hcf : env.fetchResult cfg.endpoints.csrf.path cfg.endpoints.csrf.method
  case error u => dsimp only; simp_all
  case ok val => cases val <;> dsimp only <;> (repeat' split) <;> simp_all

/-- Witness for the amended C2 at a concrete input: sign-out request first,
CSRF fetch second. -/
theorem signOut_request_then_csrf_fetch_witness :
    (signOut exCfg exEnvNoCsrf none st0).trace.take 2
      = [Event.fetched "/logout" "post", Event.fetched "/csrf" "get"] :=
  signOut_request_then_csrf_fetch exCfg exEnvNoCsrf none st0 ⟨"/logout", "post"⟩
    (JsValue.obj []) rfl rfl rfl

end NuxtAuth
